import Mathlib

/-!
# Verification of the items CRUD worker (src/src/worker.js)

Shallow embedding of the request-dispatch, admission-control (rate limiting)
and item-repository logic of the Cloudflare worker in `src/src/worker.js`.

Modelling conventions:
* Machine time (`Date.now()`) is a `Nat` of milliseconds, passed explicitly.
* The D1 database is a pure value `ItemsDB`; prepared statements become pure
  functions on it.  `created_at` is `Option Nat` so that "populated / NULL"
  is expressible; an insert sets it to `some now` (`DEFAULT CURRENT_TIMESTAMP`).
* The in-memory rate-limit fallback map (`globalThis.rateLimitStore`) is the
  association list `RLStore`; the opportunistic sweep guarded by
  `Math.random() < 0.01` is modelled by an explicit boolean `doSweep`.
* The KV branch of `checkRateLimit` is modelled monadically in `Except Unit`
  so that backend faults (`kv.get` / `kv.put` throwing) are expressible; the
  surrounding `try/catch` becomes the `match` in `checkRateLimitKV`.
* JSON request bodies become `Option JsonBody`: `none` models a body on which
  `request.json()` throws, `some b` a parsed object whose `name`/`description`
  fields are `Option String` (`none` = absent/null).
* Query parameters `page`/`limit` are modelled as already-parsed `Option Nat`
  (absent = `none`); non-numeric parameter strings are outside the model.
* Numeric ids in URL paths are strings, compared to integer row ids through
  a numeral parser (SQLite numeric affinity of `WHERE id = ?`).
* String primitives (`split('/')`, `startsWith`, `trim`, numeral parsing)
  are implemented structurally over `String.data` so that every definition
  evaluates inside the kernel.
-/

namespace CrudApp

/-! ## String primitives -/

/-- `String.split` on a single separator character, JS semantics:
`"/a/b".split('/') = ["", "a", "b"]`. -/
def splitCharsOn (c : Char) : List Char → List (List Char)
  | [] => [[]]
  | x :: xs =>
      let r := splitCharsOn c xs
      if x = c then [] :: r
      else
        match r with
        | [] => [[x]]
        | y :: ys => (x :: y) :: ys

/-- JS `path.split('/')`. -/
def jsSplitSlash (s : String) : List String :=
  (splitCharsOn '/' s.data).map (fun l => ⟨l⟩)

def isPrefixChars : List Char → List Char → Bool
  | [], _ => true
  | _ :: _, [] => false
  | x :: xs, y :: ys => x = y && isPrefixChars xs ys

/-- JS `s.startsWith(pre)`. -/
def jsStartsWith (s pre : String) : Bool :=
  isPrefixChars pre.data s.data

def isJsSpace (c : Char) : Bool :=
  c = ' ' || c = '\t' || c = '\n' || c = '\r'

/-- JS `s.trim()` (ASCII whitespace). -/
def jsTrimStr (s : String) : String :=
  ⟨((s.data.dropWhile isJsSpace).reverse.dropWhile isJsSpace).reverse⟩

def parseNatChars : List Char → Option Nat → Option Nat
  | [], acc => acc
  | c :: cs, acc =>
      if c.isDigit then
        parseNatChars cs (some ((acc.getD 0) * 10 + (c.toNat - 48)))
      else none

/-- Parse a decimal numeral; `none` when empty or containing a non-digit
(models SQLite's text-to-integer coercion for `WHERE id = ?`). -/
def parseNatStr (s : String) : Option Nat :=
  parseNatChars s.data none

/-! ## Rate limiter state (in-memory fallback branch, worker.js lines 112-147) -/

/-- `RATE_LIMIT_WINDOW = 1000` ms (worker.js line 75). -/
def RATE_LIMIT_WINDOW : Nat := 1000

/-- `MAX_REQUESTS_PER_WINDOW = 2` (worker.js line 76). -/
def MAX_REQUESTS_PER_WINDOW : Nat := 2

/-- One entry of `globalThis.rateLimitStore`: `{count, expires}`. -/
structure RLCounter where
  count : Nat
  expires : Nat
deriving Repr, DecidableEq

/-- The map key `rate_limit:${clientIP}:${windowKey}` is determined by the
pair (client id, window index); we keep the pair itself. -/
abbrev RLKey := String × Nat

/-- The in-memory store `globalThis.rateLimitStore` as an association list. -/
structure RLStore where
  entries : List (RLKey × RLCounter)
deriving Repr, DecidableEq

def RLStore.lookup (s : RLStore) (k : RLKey) : Option RLCounter :=
  (s.entries.find? (fun e => e.1 = k)).map (·.2)

/-- `Map.set`: replace the value when the key is present, append otherwise. -/
def RLStore.set (s : RLStore) (k : RLKey) (c : RLCounter) : RLStore :=
  if (s.entries.find? (fun e => e.1 = k)).isSome then
    ⟨s.entries.map (fun e => if e.1 = k then (k, c) else e)⟩
  else
    ⟨s.entries ++ [(k, c)]⟩

/-- The cleanup loop (worker.js lines 141-146): delete entries with
`expires < now`. -/
def RLStore.sweep (s : RLStore) (now : Nat) : RLStore :=
  ⟨s.entries.filter (fun e => ! decide (e.2.expires < now))⟩

/-- Result of `checkRateLimit`: `{limited}` or `{limited, resetTime}`. -/
structure RLResult where
  limited : Bool
  resetTime : Option Nat
deriving Repr, DecidableEq

/-- The in-memory fallback branch of `checkRateLimit`
(worker.js lines 86-89 and 112-149).  `doSweep` models the
`Math.random() < 0.01` coin; the sweep runs only on the paths that reach the
end of the branch (the rejection path returns early, line 131). -/
def checkRateLimitMem (clientId : String) (now : Nat) (doSweep : Bool)
    (store : RLStore) : RLResult × RLStore :=
  let windowKey := now / RATE_LIMIT_WINDOW
  let key : RLKey := (clientId, windowKey)
  match store.lookup key with
  | none =>
      let store' := store.set key ⟨1, now + RATE_LIMIT_WINDOW * 2⟩
      let store'' := if doSweep then store'.sweep now else store'
      (⟨false, none⟩, store'')
  | some entry =>
      if entry.count ≥ MAX_REQUESTS_PER_WINDOW then
        (⟨true, some ((windowKey + 1) * RATE_LIMIT_WINDOW)⟩, store)
      else
        let store' := store.set key ⟨entry.count + 1, entry.expires⟩
        let store'' := if doSweep then store'.sweep now else store'
        (⟨false, none⟩, store'')

/-! ## Rate limiter, KV branch with fallible backend (worker.js lines 92-111,
wrapped in the `try`/`catch` of lines 80 and 150-154) -/

/-- The body of the `try` block of `checkRateLimit` for the KV backend
(worker.js lines 92-111): `kvGet`/`kvPut` may raise (`Except.error`).
`kv.get` yields the stored text or `none`; JS `if (!currentCount)` treats the
empty string as absent, and `parseInt` is modelled by `(parseNatStr s).getD 0`
(only numerals are ever stored). -/
def rateLimitKVBody (kvGet : String → Except Unit (Option String))
    (kvPut : String → String → Except Unit Unit)
    (clientId : String) (now : Nat) : Except Unit RLResult := do
  let windowKey := now / RATE_LIMIT_WINDOW
  let rateLimitKey := "rate_limit:" ++ clientId ++ ":" ++ toString windowKey
  let currentCount? ← kvGet rateLimitKey
  match currentCount? with
  | none =>
      let _ ← kvPut rateLimitKey "1"
      pure ⟨false, none⟩
  | some s =>
      if s = "" then do
        let _ ← kvPut rateLimitKey "1"
        pure ⟨false, none⟩
      else
        let currentCount := (parseNatStr s).getD 0
        if currentCount ≥ MAX_REQUESTS_PER_WINDOW then
          pure ⟨true, some ((windowKey + 1) * RATE_LIMIT_WINDOW)⟩
        else do
          let _ ← kvPut rateLimitKey (toString (currentCount + 1))
          pure ⟨false, none⟩

/-- `checkRateLimit` for the KV backend: the `catch` of worker.js lines
150-154 converts any backend error into `{limited: false}` (fail open). -/
def checkRateLimitKV (kvGet : String → Except Unit (Option String))
    (kvPut : String → String → Except Unit Unit)
    (clientId : String) (now : Nat) : RLResult :=
  match rateLimitKVBody kvGet kvPut clientId now with
  | .ok r => r
  | .error _ => ⟨false, none⟩

/-! ## Items database (D1 table `items`) -/

/-- A row of `items(id, name, description, created_at)`. -/
structure Item where
  id : Nat
  name : String
  description : Option String
  created_at : Option Nat
deriving Repr, DecidableEq

/-- The `items` table plus the AUTOINCREMENT cursor. -/
structure ItemsDB where
  rows : List Item
  nextId : Nat
deriving Repr, DecidableEq

/-- `INSERT INTO items (name, description) VALUES (?, ?)`:
assigns `id = nextId`, `created_at = some now`, returns `last_row_id`. -/
def ItemsDB.insert (db : ItemsDB) (name : String) (desc : Option String)
    (now : Nat) : ItemsDB × Nat :=
  (⟨db.rows ++ [⟨db.nextId, name, desc, some now⟩], db.nextId + 1⟩, db.nextId)

/-- `SELECT * FROM items WHERE id = ?` bound to an integer id. -/
def ItemsDB.findById (db : ItemsDB) (n : Nat) : Option Item :=
  db.rows.find? (fun it => it.id = n)

/-- `SELECT * FROM items WHERE id = ?` bound to a path id string:
SQLite numeric affinity coerces the text to an integer. -/
def ItemsDB.findByIdStr (db : ItemsDB) (idStr : String) : Option Item :=
  db.rows.find? (fun it => some it.id = parseNatStr idStr)

/-- `UPDATE items SET name = ?, description = ? WHERE id = ?`. -/
def ItemsDB.updateById (db : ItemsDB) (idStr : String) (name : String)
    (desc : Option String) : ItemsDB :=
  ⟨db.rows.map (fun it =>
      if some it.id = parseNatStr idStr then
        { it with name := name, description := desc }
      else it),
   db.nextId⟩

/-- `DELETE FROM items WHERE id = ?`. -/
def ItemsDB.deleteById (db : ItemsDB) (idStr : String) : ItemsDB :=
  ⟨db.rows.filter (fun it => ! decide (some it.id = parseNatStr idStr)), db.nextId⟩

/-- Sort key for `ORDER BY created_at DESC`: SQLite sorts NULL below every
value, so NULLs come last under DESC. -/
def caVal (it : Item) : Nat :=
  match it.created_at with
  | none => 0
  | some t => t + 1

/-- Insertion step of the stable descending sort on `created_at`. -/
def insertDesc (it : Item) : List Item → List Item
  | [] => [it]
  | x :: xs => if caVal it > caVal x then it :: x :: xs else x :: insertDesc it xs

/-- `ORDER BY created_at DESC` (tie order unspecified in SQL; this model
keeps insertion order among ties). -/
def sortByCreatedDesc : List Item → List Item
  | [] => []
  | x :: xs => insertDesc x (sortByCreatedDesc xs)

/-! ## Requests and responses -/

/-- A parsed JSON request body `{name?, description?}`. -/
structure JsonBody where
  name : Option String
  description : Option String
deriving Repr, DecidableEq

/-- The parts of an incoming request the worker reads. `body = none` models a
body on which `request.json()` throws. -/
structure Request where
  method : String
  path : String
  pageParam : Option Nat
  limitParam : Option Nat
  body : Option JsonBody
  cfConnectingIP : Option String
  xForwardedFor : Option String
deriving Repr, DecidableEq

/-- Pagination metadata `{page, limit, total, pages}` (worker.js 205-210). -/
structure Pagination where
  page : Nat
  limit : Nat
  total : Nat
  pages : Nat
deriving Repr, DecidableEq

/-- The JSON payload shapes the worker produces. -/
inductive RespBody where
  | empty
  | rateLimited (retryAfter : Nat)
  | item (it : Item)
  | itemsList (items : List Item) (pg : Pagination)
  | created (it : Option Item)
  | updated (it : Option Item)
  | deleted (it : Item)
  | err (error : String) (details : Option String)
  | html
  | schemaSql
deriving Repr, DecidableEq

/-- An HTTP response: status, payload, and whether CORS headers are merged
(every branch of the worker merges `corsHeaders`). -/
structure Response where
  status : Nat
  body : RespBody
  cors : Bool
deriving Repr, DecidableEq

/-- `path.split('/').filter(part => part.length > 0)` (worker.js line 163). -/
def pathParts (p : String) : List String :=
  (jsSplitSlash p).filter (fun s => s ≠ "")

/-- `pathParts.length === 3 ? pathParts[2] : null` (worker.js line 164). -/
def pathId (p : String) : Option String :=
  let parts := pathParts p
  if parts.length = 3 then parts[2]? else none

/-- JS falsy-name validation `!name || name.trim() === ''`
(worker.js lines 225 and 290). -/
def jsNameInvalid : Option String → Bool
  | none => true
  | some s => s == "" || jsTrimStr s == ""

/-- `description ? description.trim() : null` (worker.js lines 240 and 324):
absent, null and `""` are falsy and store NULL; a truthy string is trimmed. -/
def jsDescStore : Option String → Option String
  | none => none
  | some s => if s == "" then none else some (jsTrimStr s)

/-- `Math.ceil(total / limit) || 1` (worker.js line 209) for a positive
`limit`; `limit = 0` (JS `Infinity`) is outside the model. -/
def jsPages (total limit : Nat) : Nat :=
  let p := (total + limit - 1) / limit
  if p = 0 then 1 else p

/-- `Math.ceil((resetTime - Date.now()) / 1000)` (worker.js line 28). -/
def jsRetryAfterSecs (resetTime now : Nat) : Nat :=
  (resetTime - now + 999) / 1000

/-- `handleItemsAPI` (worker.js lines 157-426).  The database model is pure,
so the `catch` branch of lines 413-425 (status 500) is unreachable here. -/
def handleItemsAPI (req : Request) (db : ItemsDB) (now : Nat) :
    Response × ItemsDB :=
  let id? := pathId req.path
  if req.method = "GET" then
    match id? with
    | some idStr =>
        match db.findByIdStr idStr with
        | none => (⟨404, .err "Item not found" none, true⟩, db)
        | some it => (⟨200, .item it, true⟩, db)
    | none =>
        let page := req.pageParam.getD 1
        let limit := req.limitParam.getD 10
        let offset := (page - 1) * limit
        let total := db.rows.length
        let items := ((sortByCreatedDesc db.rows).drop offset).take limit
        (⟨200, .itemsList items ⟨page, limit, total, jsPages total limit⟩, true⟩,
         db)
  else if req.method = "POST" then
    match req.body with
    | none =>
        (⟨400, .err "Invalid JSON data"
            (some "Please provide valid JSON in the request body"), true⟩, db)
    | some b =>
        if jsNameInvalid b.name then
          (⟨400, .err "Name is required"
              (some "Please provide a valid name for the item"), true⟩, db)
        else
          let name := jsTrimStr (b.name.getD "")
          let (db', newId) := db.insert name (jsDescStore b.description) now
          (⟨201, .created (db'.findById newId), true⟩, db')
  else if req.method = "PUT" then
    match id? with
    | none =>
        (⟨400, .err "ID is required"
            (some "Please provide an item ID in the URL"), true⟩, db)
    | some idStr =>
        match req.body with
        | none =>
            (⟨400, .err "Invalid JSON data"
                (some "Please provide valid JSON in the request body"), true⟩,
             db)
        | some b =>
            if jsNameInvalid b.name then
              (⟨400, .err "Name is required"
                  (some "Please provide a valid name for the item"), true⟩, db)
            else
              match db.findByIdStr idStr with
              | none =>
                  (⟨404, .err "Item not found"
                      (some ("Item with ID " ++ idStr ++ " does not exist")),
                    true⟩, db)
              | some _ =>
                  let name := jsTrimStr (b.name.getD "")
                  let db' := db.updateById idStr name (jsDescStore b.description)
                  (⟨200, .updated (db'.findByIdStr idStr), true⟩, db')
  else if req.method = "DELETE" then
    match id? with
    | none =>
        (⟨400, .err "ID is required"
            (some "Please provide an item ID in the URL"), true⟩, db)
    | some idStr =>
        match db.findByIdStr idStr with
        | none =>
            (⟨404, .err "Item not found"
                (some ("Item with ID " ++ idStr ++ " does not exist")), true⟩,
             db)
        | some existing =>
            (⟨200, .deleted existing, true⟩, db.deleteById idStr)
  else
    (⟨405, .err "Method not allowed" none, true⟩, db)

/-! ## Top-level fetch handler (worker.js lines 1-72) -/

/-- Worker state: the rate-limit store and the database. -/
structure WorkerState where
  rl : RLStore
  db : ItemsDB
deriving Repr, DecidableEq

/-- JS `a || b` on a nullable string: `""` and null are falsy. -/
def jsOrStr (a : Option String) (b : String) : String :=
  match a with
  | none => b
  | some s => if s = "" then b else s

/-- `CF-Connecting-IP || X-Forwarded-For || 'anonymous'`
(worker.js lines 82-84). -/
def clientIdOf (req : Request) : String :=
  jsOrStr req.cfConnectingIP (jsOrStr req.xForwardedFor "anonymous")

/-- Routing after the rate-limit gate (worker.js lines 39-70). -/
def routeAfterGate (req : Request) (now : Nat) (db : ItemsDB) (rl : RLStore) :
    Response × WorkerState :=
  if jsStartsWith req.path "/api/items" then
    let (resp, db') := handleItemsAPI req db now
    (resp, ⟨rl, db'⟩)
  else if req.path = "/" then (⟨200, .html, true⟩, ⟨rl, db⟩)
  else if req.path = "/schema.sql" then (⟨200, .schemaSql, true⟩, ⟨rl, db⟩)
  else (⟨404, .err "Not found" none, true⟩, ⟨rl, db⟩)

/-- The `fetch` handler (worker.js lines 2-71), using the in-memory
rate-limit backend (no `RATE_LIMIT_KV` binding): OPTIONS preflight first,
then the rate-limit gate for non-GET `/api/items*` requests, then routing. -/
def fetchHandler (req : Request) (now : Nat) (doSweep : Bool)
    (st : WorkerState) : Response × WorkerState :=
  if req.method = "OPTIONS" then
    (⟨200, .empty, true⟩, st)
  else if jsStartsWith req.path "/api/items" && req.method != "GET" then
    let (r, rl') := checkRateLimitMem (clientIdOf req) now doSweep st.rl
    if r.limited then
      (⟨429, .rateLimited (jsRetryAfterSecs (r.resetTime.getD 0) now), true⟩,
       ⟨rl', st.db⟩)
    else routeAfterGate req now st.db rl'
  else routeAfterGate req now st.db st.rl

/-! ## Spec-side fixed-window algorithm (for the refinement claim C1) -/

/-- Decision of the spec's admission algorithm: allow, or reject with
`retryAfterMs`. -/
structure SpecDecision where
  allow : Bool
  retryAfterMs : Option Nat
deriving Repr, DecidableEq

/-- Modelled from the spec (§4.2 step 3), not from the source — the
fixed-window counter algorithm: if no counter exists for
`(clientId, windowIndex = floor(now / windowLengthMs))`, create it with
`count = 1` and `expiresAt = now + 2 * windowLengthMs` and allow; if one
exists with `count < maxPerWindow`, increment and allow; otherwise reject
with `retryAfterMs = (windowIndex + 1) * windowLengthMs - now`. -/
def fixedWindowSpecStep (windowLengthMs maxPerWindow : Nat) (clientId : String)
    (now : Nat) (store : RLStore) : SpecDecision × RLStore :=
  let windowIndex := now / windowLengthMs
  let key : RLKey := (clientId, windowIndex)
  match store.lookup key with
  | none =>
      (⟨true, none⟩, store.set key ⟨1, now + 2 * windowLengthMs⟩)
  | some c =>
      if c.count < maxPerWindow then
        (⟨true, none⟩, store.set key ⟨c.count + 1, c.expires⟩)
      else
        (⟨false, some ((windowIndex + 1) * windowLengthMs - now)⟩, store)

/-! ## Helper lemmas -/

lemma length_insertDesc (it : Item) (l : List Item) :
    (insertDesc it l).length = l.length + 1 := by
  induction l with
  | nil => rfl
  | cons x xs ih =>
      unfold insertDesc
      split
      · simp
      · simp [ih]

lemma length_sortByCreatedDesc (l : List Item) :
    (sortByCreatedDesc l).length = l.length := by
  induction l with
  | nil => rfl
  | cons x xs ih => simp [sortByCreatedDesc, length_insertDesc, ih]

/-- `jsPages total limit` is `ceil(total / limit)` with a minimum of 1:
it is at least 1, covers `total`, and (when above 1) its predecessor does
not cover `total`. -/
lemma jsPages_spec (total limit : Nat) (hl : 0 < limit) :
    1 ≤ jsPages total limit
    ∧ total ≤ jsPages total limit * limit
    ∧ (1 < jsPages total limit
        → (jsPages total limit - 1) * limit < total) := by
  unfold jsPages
  by_cases h0 : (total + limit - 1) / limit = 0
  · have h1 := Nat.div_add_mod (total + limit - 1) limit
    have h2 := Nat.mod_lt (total + limit - 1) hl
    rw [h0, Nat.mul_zero, Nat.zero_add] at h1
    simp only [if_pos h0]
    refine ⟨Nat.le_refl 1, by omega, by omega⟩
  · simp only [if_neg h0]
    refine ⟨Nat.pos_of_ne_zero h0, ?_, ?_⟩
    · have h1 := Nat.div_add_mod (total + limit - 1) limit
      have h2 := Nat.mod_lt (total + limit - 1) hl
      rw [Nat.mul_comm] at h1
      generalize hq : (total + limit - 1) / limit * limit = q at h1 ⊢
      omega
    · intro hp
      have h3 : (total + limit - 1) / limit * limit ≤ total + limit - 1 :=
        Nat.div_mul_le_self _ _
      have h4 : 2 * limit ≤ (total + limit - 1) / limit * limit :=
        Nat.mul_le_mul_right limit hp
      rw [Nat.sub_one_mul]
      generalize hq : (total + limit - 1) / limit * limit = q at h3 h4 ⊢
      omega

lemma routeAfterGate_rl_transparent (req : Request) (now : Nat)
    (db : ItemsDB) (rl rl2 : RLStore) :
    (routeAfterGate req now db rl).1 = (routeAfterGate req now db rl2).1
    ∧ (routeAfterGate req now db rl).2.rl = rl := by
  unfold routeAfterGate
  by_cases h1 : jsStartsWith req.path "/api/items" = true
  · simp only [if_pos h1]
    simp
  · simp only [if_neg h1]
    by_cases h2 : req.path = "/"
    · simp only [if_pos h2]
      simp
    · simp only [if_neg h2]
      by_cases h3 : req.path = "/schema.sql"
      · simp only [if_pos h3]
        simp
      · simp only [if_neg h3]
        simp

lemma handleItemsAPI_get_not_429 (req : Request) (db : ItemsDB) (now : Nat)
    (hm : req.method = "GET") : (handleItemsAPI req db now).1.status ≠ 429 := by
  unfold handleItemsAPI
  simp only [hm, if_pos]
  cases hid : pathId req.path with
  | none => simp
  | some idStr =>
      cases hfind : db.findByIdStr idStr with
      | none => simp [hfind]
      | some it => simp [hfind]

lemma routeAfterGate_get_not_429 (req : Request) (now : Nat) (db : ItemsDB)
    (rl : RLStore) (hm : req.method = "GET") :
    (routeAfterGate req now db rl).1.status ≠ 429 := by
  unfold routeAfterGate
  by_cases h1 : jsStartsWith req.path "/api/items" = true
  · simpa [if_pos h1] using handleItemsAPI_get_not_429 req db now hm
  · simp only [if_neg h1]
    by_cases h2 : req.path = "/"
    · simp only [if_pos h2]
      simp
    · simp only [if_neg h2]
      by_cases h3 : req.path = "/schema.sql"
      · simp only [if_pos h3]
        simp
      · simp only [if_neg h3]
        simp

lemma fetchHandler_gate_off (req : Request) (now : Nat) (doSweep : Bool)
    (rl : RLStore) (db : ItemsDB)
    (hgate : (jsStartsWith req.path "/api/items" && req.method != "GET")
        = false)
    (hopt : req.method ≠ "OPTIONS") :
    fetchHandler req now doSweep ⟨rl, db⟩ = routeAfterGate req now db rl := by
  unfold fetchHandler
  simp [hopt, hgate]

lemma find?_skip_prefix (p : Item → Bool) (rows : List Item) (newIt : Item)
    (hrows : ∀ it ∈ rows, p it = false) (hnew : p newIt = true) :
    (rows ++ [newIt]).find? p = some newIt := by
  rw [List.find?_append]
  have h1 : rows.find? p = none := by
    apply List.find?_eq_none.mpr
    intro x hx
    simp [hrows x hx]
  rw [h1]
  simp [List.find?, hnew]

/-! ## Claims -/

/-- C1: for every write admission check, the decision for the key
`(clientId, windowIndex = now / 1000)` with `windowLengthMs = 1000` and
`maxPerWindow = 2` follows the fixed-window counter algorithm: absent counter
⟹ created with `count = 1`, expiry `now + 2 * windowLengthMs`, allow;
`count < maxPerWindow` ⟹ increment and allow; `count ≥ maxPerWindow` ⟹
reject (with `resetTime` the start of the next window, i.e. `retryAfterMs`
after `now`).  The store comparison is stated for `doSweep = false`; the
decision and reset time agree for every `doSweep`. -/
theorem c1_admission_follows_fixed_window (clientId : String) (now : Nat)
    (doSweep : Bool) (store : RLStore) :
    ((checkRateLimitMem clientId now doSweep store).1.limited
        = !((fixedWindowSpecStep 1000 2 clientId now store).1.allow))
    ∧ ((checkRateLimitMem clientId now doSweep store).1.resetTime
        = ((fixedWindowSpecStep 1000 2 clientId now store).1.retryAfterMs).map
            (· + now))
    ∧ ((checkRateLimitMem clientId now false store).2
        = (fixedWindowSpecStep 1000 2 clientId now store).2) := by
  unfold checkRateLimitMem fixedWindowSpecStep RATE_LIMIT_WINDOW
    MAX_REQUESTS_PER_WINDOW
  cases h : RLStore.lookup store (clientId, now / 1000) with
  | none => simp [h]
  | some c =>
      by_cases hc : c.count < 2
      · simp [h, hc, show ¬(c.count ≥ 2) from by omega]
      · have hge : c.count ≥ 2 := by omega
        have harith : (now / 1000 + 1) * 1000 - now + now
            = (now / 1000 + 1) * 1000 := by omega
        simp [h, hc, hge, harith]

/-- C3: if any error is raised while consulting the rate-limiter backend
(counter lookup or store), `checkRateLimit` returns an allow decision and no
error is surfaced to the caller (fail-open). -/
theorem c3_fail_open (kvGet : String → Except Unit (Option String))
    (kvPut : String → String → Except Unit Unit) (clientId : String)
    (now : Nat) (e : Unit)
    (h : rateLimitKVBody kvGet kvPut clientId now = .error e) :
    checkRateLimitKV kvGet kvPut clientId now = ⟨false, none⟩ := by
  unfold checkRateLimitKV
  rw [h]

/-- C3 witness: a backend whose lookup raises makes the body error, and the
controller still allows. -/
theorem c3_fail_open_witness :
    rateLimitKVBody (fun _ => .error ()) (fun _ _ => .ok ()) "X" 0 = .error ()
    ∧ checkRateLimitKV (fun _ => .error ()) (fun _ _ => .ok ()) "X" 0
        = ⟨false, none⟩ :=
  ⟨rfl, c3_fail_open (fun _ => .error ()) (fun _ _ => .ok ()) "X" 0 () rfl⟩

/-- The write request and initial state of the spec's rate-limiting scenario
(§8): client `X`, valid body, empty stores. -/
def writeReqX : Request :=
  ⟨"POST", "/api/items", none, none, some ⟨some "A", some "d"⟩, some "X", none⟩

def emptyState : WorkerState := ⟨⟨[]⟩, ⟨[], 1⟩⟩

/-- State after the first scenario write (t = 0 ms, allowed). -/
def c2state1 : WorkerState := (fetchHandler writeReqX 0 false emptyState).2

/-- State after the second scenario write (t = 200 ms, allowed). -/
def c2state2 : WorkerState := (fetchHandler writeReqX 200 false c2state1).2

/-- Response to the third scenario write (t = 400 ms). -/
def c2resp3 : Response := (fetchHandler writeReqX 400 false c2state2).1

/-- C2 counterexample: in the spec's scenario (`windowLengthMs = 1000`,
`maxPerWindow = 2`), the third write at t = 400 ms is rejected with
`retryAfter = 1` (seconds, `Math.ceil(600/1000)`), not ≈ 600: the claimed
value 600 is the milliseconds remainder, not the response field. -/
theorem c2_counterexample :
    (fetchHandler writeReqX 0 false emptyState).1.status = 201
    ∧ (fetchHandler writeReqX 200 false c2state1).1.status = 201
    ∧ c2resp3.status = 429
    ∧ c2resp3.body = .rateLimited 1
    ∧ c2resp3.body ≠ .rateLimited 600 := by
  refine ⟨by decide, by decide, by decide, by decide, by decide⟩

/-- C2 (amended): every write request rejected by the admission controller is
answered with status 429 and a body whose `retryAfter` field is
`ceil(((windowIndex + 1) * windowLengthMs - now) / 1000)` — the seconds until
the start of the next window rounded up; in the spec's scenario the third
write at t = 400 ms is rejected with `retryAfter = 1` (600 ms until the next
window). -/
theorem c2_rejected_write_429 (req : Request) (now : Nat) (doSweep : Bool)
    (st : WorkerState) (c : RLCounter)
    (hopt : req.method ≠ "OPTIONS") (hget : req.method ≠ "GET")
    (hpath : jsStartsWith req.path "/api/items" = true)
    (hc : st.rl.lookup (clientIdOf req, now / 1000) = some c)
    (hsat : c.count ≥ 2) :
    (fetchHandler req now doSweep st).1.status = 429
    ∧ (fetchHandler req now doSweep st).1.body
        = .rateLimited (jsRetryAfterSecs ((now / 1000 + 1) * 1000) now)
    ∧ c2resp3.body = .rateLimited 1 := by
  unfold fetchHandler checkRateLimitMem RATE_LIMIT_WINDOW
    MAX_REQUESTS_PER_WINDOW
  simp [hopt, hget, hpath, hc, hsat]
  decide

/-- C2 witness: the amended statement at the scenario's third write. -/
theorem c2_rejected_write_429_witness :
    (fetchHandler writeReqX 400 false c2state2).1.status = 429
    ∧ (fetchHandler writeReqX 400 false c2state2).1.body
        = .rateLimited (jsRetryAfterSecs ((400 / 1000 + 1) * 1000) 400)
    ∧ c2resp3.body = .rateLimited 1 :=
  c2_rejected_write_429 writeReqX 400 false c2state2 ⟨2, 2000⟩ (by decide)
    (by decide) (by decide) (by decide) (by decide)

/-- C4: every create (POST) or update (PUT) request whose parsed body has a
`name` that is absent or trims to the empty string is answered 400 and
leaves the items store unchanged. -/
theorem c4_invalid_name_400 (req : Request) (db : ItemsDB) (now : Nat)
    (b : JsonBody) (hm : req.method = "POST" ∨ req.method = "PUT")
    (hb : req.body = some b) (hn : jsNameInvalid b.name = true) :
    (handleItemsAPI req db now).1.status = 400
    ∧ (handleItemsAPI req db now).2 = db := by
  unfold handleItemsAPI
  rcases hm with hm | hm
  · simp [hm, hb, hn]
  · simp only [hm]
    cases hid : pathId req.path with
    | none => simp [hb, hn]
    | some idStr => simp [hb, hn]

/-- C4 witness: a POST whose body has no `name`, on a one-row store. -/
theorem c4_invalid_name_400_witness :
    (handleItemsAPI ⟨"POST", "/api/items", none, none, some ⟨none, some "d"⟩,
        none, none⟩ ⟨[⟨1, "a", none, some 0⟩], 2⟩ 5).1.status = 400
    ∧ (handleItemsAPI ⟨"POST", "/api/items", none, none, some ⟨none, some "d"⟩,
        none, none⟩ ⟨[⟨1, "a", none, some 0⟩], 2⟩ 5).2
        = ⟨[⟨1, "a", none, some 0⟩], 2⟩ :=
  c4_invalid_name_400 _ _ 5 ⟨none, some "d"⟩ (Or.inl rfl) rfl (by decide)

/-- C5 counterexample: a PUT to the nonexistent id 1 whose body has a blank
`name` is answered 400 (validation runs before the existence check), not 404
as the claim states for every update to a nonexistent id. -/
theorem c5_counterexample :
    (ItemsDB.findByIdStr ⟨[], 1⟩ "1" = none)
    ∧ (handleItemsAPI ⟨"PUT", "/api/items/1", none, none, some ⟨some "", none⟩,
        none, none⟩ ⟨[], 1⟩ 0).1.status = 400
    ∧ (handleItemsAPI ⟨"PUT", "/api/items/1", none, none, some ⟨some "", none⟩,
        none, none⟩ ⟨[], 1⟩ 0).1.status ≠ 404 := by
  refine ⟨by decide, by decide, by decide⟩

/-- C5 (amended): every DELETE request, and every PUT request whose body
parses with a valid (non-blank) name, addressed to an id with no matching
row, is answered 404 with a body naming the offending id, and the items
store is unchanged (existence is checked before any write). -/
theorem c5_not_found_404 (req : Request) (db : ItemsDB) (now : Nat)
    (idStr : String) (b : JsonBody)
    (hid : pathId req.path = some idStr)
    (hfind : db.findByIdStr idStr = none)
    (hm : req.method = "DELETE"
        ∨ (req.method = "PUT" ∧ req.body = some b
            ∧ jsNameInvalid b.name = false)) :
    (handleItemsAPI req db now).1.status = 404
    ∧ (handleItemsAPI req db now).1.body
        = .err "Item not found"
            (some ("Item with ID " ++ idStr ++ " does not exist"))
    ∧ (handleItemsAPI req db now).2 = db := by
  unfold handleItemsAPI
  rcases hm with hm | ⟨hm, hb, hn⟩
  · simp [hm, hid, hfind]
  · simp [hm, hid, hb, hn, hfind]

/-- C5 witness: a DELETE of id 1 on an empty store. -/
theorem c5_not_found_404_witness :
    (handleItemsAPI ⟨"DELETE", "/api/items/1", none, none, none, none, none⟩
        ⟨[], 1⟩ 0).1.status = 404
    ∧ (handleItemsAPI ⟨"DELETE", "/api/items/1", none, none, none, none, none⟩
        ⟨[], 1⟩ 0).1.body
        = .err "Item not found" (some ("Item with ID " ++ "1"
            ++ " does not exist"))
    ∧ (handleItemsAPI ⟨"DELETE", "/api/items/1", none, none, none, none, none⟩
        ⟨[], 1⟩ 0).2 = ⟨[], 1⟩ :=
  c5_not_found_404 _ _ 0 "1" ⟨none, none⟩ (by decide) (by decide)
    (Or.inl rfl)

/-- A store of 15 items, as in the spec's pagination scenario. -/
def db15 : ItemsDB :=
  ⟨(List.range 15).map (fun i => ⟨i + 1, "item", none, some i⟩), 16⟩

/-- A list request `GET /api/items?page=&limit=`. -/
def listReq (p l : Option Nat) : Request :=
  ⟨"GET", "/api/items", p, l, none, none, none⟩

/-- C6: for every list request, `page` defaults to 1 and `limit` to 10, the
returned slice starts at `offset = (page - 1) * limit` and holds at most
`limit` items (exactly `min limit (total - offset)`), and the pagination
metadata is `{page, limit, total, pages}` with `pages = ceil(total / limit)`
and a minimum of 1; with 15 items, `limit=10 page=1` yields 10 items and
`pages = 2`, and `limit=10 page=2` yields 5 items and `pages = 2`. -/
theorem c6_pagination (db : ItemsDB) (now : Nat) (req : Request)
    (page limit : Nat) (hm : req.method = "GET")
    (hid : pathId req.path = none)
    (hpage : req.pageParam.getD 1 = page)
    (hlimit : req.limitParam.getD 10 = limit) :
    ((handleItemsAPI req db now).1.body
        = .itemsList
            (((sortByCreatedDesc db.rows).drop ((page - 1) * limit)).take limit)
            ⟨page, limit, db.rows.length, jsPages db.rows.length limit⟩)
    ∧ ((((sortByCreatedDesc db.rows).drop ((page - 1) * limit)).take
          limit).length
        = min limit (db.rows.length - (page - 1) * limit))
    ∧ (0 < limit →
        1 ≤ jsPages db.rows.length limit
        ∧ db.rows.length ≤ jsPages db.rows.length limit * limit
        ∧ (1 < jsPages db.rows.length limit
            → (jsPages db.rows.length limit - 1) * limit < db.rows.length))
    ∧ (handleItemsAPI (listReq none none) db15 99).1.body
        = .itemsList ((sortByCreatedDesc db15.rows).take 10) ⟨1, 10, 15, 2⟩
    ∧ ((sortByCreatedDesc db15.rows).take 10).length = 10
    ∧ (handleItemsAPI (listReq (some 2) (some 10)) db15 99).1.body
        = .itemsList ((sortByCreatedDesc db15.rows).drop 10) ⟨2, 10, 15, 2⟩
    ∧ ((sortByCreatedDesc db15.rows).drop 10).length = 5 := by
  refine ⟨?_, ?_, jsPages_spec db.rows.length limit, by decide, by decide,
    by decide, by decide⟩
  · unfold handleItemsAPI
    simp [hm, hid, hpage, hlimit]
  · rw [List.length_take, List.length_drop, length_sortByCreatedDesc]

/-- C6 witness: the scenario request `limit=10, page=2` on the 15-item
store. -/
theorem c6_pagination_witness :
    ((handleItemsAPI (listReq (some 2) (some 10)) db15 99).1.body
        = .itemsList
            (((sortByCreatedDesc db15.rows).drop ((2 - 1) * 10)).take 10)
            ⟨2, 10, db15.rows.length, jsPages db15.rows.length 10⟩)
    ∧ ((((sortByCreatedDesc db15.rows).drop ((2 - 1) * 10)).take 10).length
        = min 10 (db15.rows.length - (2 - 1) * 10))
    ∧ (0 < 10 →
        1 ≤ jsPages db15.rows.length 10
        ∧ db15.rows.length ≤ jsPages db15.rows.length 10 * 10
        ∧ (1 < jsPages db15.rows.length 10
            → (jsPages db15.rows.length 10 - 1) * 10 < db15.rows.length))
    ∧ (handleItemsAPI (listReq none none) db15 99).1.body
        = .itemsList ((sortByCreatedDesc db15.rows).take 10) ⟨1, 10, 15, 2⟩
    ∧ ((sortByCreatedDesc db15.rows).take 10).length = 10
    ∧ (handleItemsAPI (listReq (some 2) (some 10)) db15 99).1.body
        = .itemsList ((sortByCreatedDesc db15.rows).drop 10) ⟨2, 10, 15, 2⟩
    ∧ ((sortByCreatedDesc db15.rows).drop 10).length = 5 :=
  c6_pagination db15 99 (listReq (some 2) (some 10)) 2 10 rfl (by decide)
    rfl rfl

/-- C8: a GET request is never answered 429, and for GET requests (any path)
and for requests outside `/api/items*` (any method) the rate limiter is
neither consulted (the response is the same for every rate-limit store) nor
changed. -/
theorem c8_get_bypasses_admission (req : Request) (now : Nat) (doSweep : Bool)
    (rl rl2 : RLStore) (db : ItemsDB)
    (h : req.method = "GET" ∨ jsStartsWith req.path "/api/items" = false) :
    (fetchHandler req now doSweep ⟨rl, db⟩).1
        = (fetchHandler req now doSweep ⟨rl2, db⟩).1
    ∧ (fetchHandler req now doSweep ⟨rl, db⟩).2.rl = rl
    ∧ (req.method = "GET"
        → (fetchHandler req now doSweep ⟨rl, db⟩).1.status ≠ 429) := by
  by_cases hopt : req.method = "OPTIONS"
  · have hrw : ∀ st : WorkerState, fetchHandler req now doSweep st
        = (⟨200, .empty, true⟩, st) := by
      intro st
      unfold fetchHandler
      simp [hopt]
    rw [hrw ⟨rl, db⟩, hrw ⟨rl2, db⟩]
    refine ⟨rfl, rfl, fun hg => ?_⟩
    rw [hg] at hopt
    exact absurd hopt (by decide)
  · have hgate : (jsStartsWith req.path "/api/items" && req.method != "GET")
        = false := by
      rcases h with hg | hsw
      · simp [hg]
      · simp [hsw]
    rw [fetchHandler_gate_off req now doSweep rl db hgate hopt,
      fetchHandler_gate_off req now doSweep rl2 db hgate hopt]
    refine ⟨(routeAfterGate_rl_transparent req now db rl rl2).1,
      (routeAfterGate_rl_transparent req now db rl rl2).2,
      fun hg => routeAfterGate_get_not_429 req now db rl hg⟩

/-- C8 witness: a concrete GET list request, with two different rate-limit
stores. -/
theorem c8_get_bypasses_admission_witness :
    (fetchHandler (listReq none none) 7 true ⟨⟨[]⟩, ⟨[], 1⟩⟩).1
        = (fetchHandler (listReq none none) 7 true
            ⟨⟨[(("X", 0), ⟨2, 2000⟩)]⟩, ⟨[], 1⟩⟩).1
    ∧ (fetchHandler (listReq none none) 7 true ⟨⟨[]⟩, ⟨[], 1⟩⟩).2.rl = ⟨[]⟩
    ∧ ((listReq none none).method = "GET"
        → (fetchHandler (listReq none none) 7 true
            ⟨⟨[]⟩, ⟨[], 1⟩⟩).1.status ≠ 429) :=
  c8_get_bypasses_admission (listReq none none) 7 true ⟨[]⟩
    ⟨[(("X", 0), ⟨2, 2000⟩)]⟩ ⟨[], 1⟩ (Or.inl rfl)

/-- C7: every OPTIONS request, on any path, is answered immediately with
status 200, CORS headers and an empty body; the worker state (rate-limiter
store and items store) is returned unchanged and the response does not
depend on it. -/
theorem c7_options_preflight (req : Request) (now : Nat) (doSweep : Bool)
    (st : WorkerState) (h : req.method = "OPTIONS") :
    fetchHandler req now doSweep st = (⟨200, .empty, true⟩, st) := by
  unfold fetchHandler
  simp [h]

/-- C7 witness: a concrete OPTIONS request to `/api/items/7`. -/
theorem c7_options_preflight_witness :
    fetchHandler ⟨"OPTIONS", "/api/items/7", none, none, none, none, none⟩ 123
        true ⟨⟨[(("X", 0), ⟨2, 2000⟩)]⟩, ⟨[], 1⟩⟩
      = (⟨200, .empty, true⟩, ⟨⟨[(("X", 0), ⟨2, 2000⟩)]⟩, ⟨[], 1⟩⟩) :=
  c7_options_preflight _ 123 true _ rfl

/-- The create request of the round-trip property. -/
def createReq (name desc : String) : Request :=
  ⟨"POST", "/api/items", none, none, some ⟨some name, some desc⟩, none, none⟩

/-- C9: creating a body such as `{name:"A", description:"d"}` (trim-fixed
non-empty strings) and then reading `/api/items/{id}` by the returned id,
with no intervening writes, returns 201 with the created row, and the read
yields the same `name` and `description` and a populated (non-`none`)
`created_at`; the read leaves the store unchanged. -/
theorem c9_create_read_round_trip (db : ItemsDB) (now now2 : Nat)
    (name desc : String) (req2 : Request) (idStr : String)
    (hnt : jsTrimStr name = name) (hne : name ≠ "")
    (hdt : jsTrimStr desc = desc) (hde : desc ≠ "")
    (hids : ∀ it ∈ db.rows, it.id < db.nextId)
    (hm2 : req2.method = "GET")
    (hid2 : pathId req2.path = some idStr)
    (hparse : parseNatStr idStr = some db.nextId) :
    (handleItemsAPI (createReq name desc) db now).1.status = 201
    ∧ (handleItemsAPI (createReq name desc) db now).1.body
        = .created (some ⟨db.nextId, name, some desc, some now⟩)
    ∧ (handleItemsAPI req2
          (handleItemsAPI (createReq name desc) db now).2 now2).1
        = ⟨200, .item ⟨db.nextId, name, some desc, some now⟩, true⟩
    ∧ (handleItemsAPI req2
          (handleItemsAPI (createReq name desc) db now).2 now2).2
        = (handleItemsAPI (createReq name desc) db now).2
    ∧ Item.created_at ⟨db.nextId, name, some desc, some now⟩ ≠ none := by
  have hninv : jsNameInvalid (some name) = false := by
    simp [jsNameInvalid, hnt, hne]
  have hdstore : jsDescStore (some desc) = some desc := by
    simp [jsDescStore, hde]
    exact hdt
  have hfound : ItemsDB.findById
      ⟨db.rows ++ [⟨db.nextId, name, some desc, some now⟩], db.nextId + 1⟩
      db.nextId = some ⟨db.nextId, name, some desc, some now⟩ := by
    unfold ItemsDB.findById
    apply find?_skip_prefix
    · intro it hit
      simp [Nat.ne_of_lt (hids it hit)]
    · simp
  have hcreate : handleItemsAPI (createReq name desc) db now
      = (⟨201, .created (some ⟨db.nextId, name, some desc, some now⟩), true⟩,
         ⟨db.rows ++ [⟨db.nextId, name, some desc, some now⟩],
          db.nextId + 1⟩) := by
    unfold handleItemsAPI createReq
    simp [hninv, hdstore, ItemsDB.insert, hnt] at hfound ⊢
    simp [hfound]
  have hfound2 : ItemsDB.findByIdStr
      ⟨db.rows ++ [⟨db.nextId, name, some desc, some now⟩], db.nextId + 1⟩
      idStr = some ⟨db.nextId, name, some desc, some now⟩ := by
    unfold ItemsDB.findByIdStr
    apply find?_skip_prefix
    · intro it hit
      simp [hparse, Nat.ne_of_lt (hids it hit)]
    · simp [hparse]
  have hget : handleItemsAPI req2
      (⟨db.rows ++ [⟨db.nextId, name, some desc, some now⟩],
        db.nextId + 1⟩ : ItemsDB) now2
      = (⟨200, .item ⟨db.nextId, name, some desc, some now⟩, true⟩,
         ⟨db.rows ++ [⟨db.nextId, name, some desc, some now⟩],
          db.nextId + 1⟩) := by
    unfold handleItemsAPI
    simp [hm2, hid2, hfound2]
  rw [hcreate]
  refine ⟨rfl, rfl, ?_, ?_, by simp⟩
  · rw [hget]
  · rw [hget]

/-- C9 witness: create `{name:"A", description:"d"}` on an empty store, then
`GET /api/items/1`. -/
theorem c9_create_read_round_trip_witness :
    (handleItemsAPI (createReq "A" "d") ⟨[], 1⟩ 5).1.status = 201
    ∧ (handleItemsAPI (createReq "A" "d") ⟨[], 1⟩ 5).1.body
        = .created (some ⟨1, "A", some "d", some 5⟩)
    ∧ (handleItemsAPI ⟨"GET", "/api/items/1", none, none, none, none, none⟩
          (handleItemsAPI (createReq "A" "d") ⟨[], 1⟩ 5).2 6).1
        = ⟨200, .item ⟨1, "A", some "d", some 5⟩, true⟩
    ∧ (handleItemsAPI ⟨"GET", "/api/items/1", none, none, none, none, none⟩
          (handleItemsAPI (createReq "A" "d") ⟨[], 1⟩ 5).2 6).2
        = (handleItemsAPI (createReq "A" "d") ⟨[], 1⟩ 5).2
    ∧ Item.created_at ⟨1, "A", some "d", some 5⟩ ≠ none :=
  c9_create_read_round_trip ⟨[], 1⟩ 5 6 "A" "d"
    ⟨"GET", "/api/items/1", none, none, none, none, none⟩ "1" (by decide)
    (by decide) (by decide) (by decide) (by simp) rfl (by decide) (by decide)

/-- C10: for every create or update with a valid name, the stored
`description` is `description ? description.trim() : null`: `none` when the
body's description is absent/null or the empty string (falsy), and the
trimmed string when it is a non-empty (truthy) string. -/
theorem c10_description_normalization (db : ItemsDB) (now : Nat)
    (nameStr : String) (descOpt : Option String)
    (hname : jsNameInvalid (some nameStr) = false) :
    ((handleItemsAPI ⟨"POST", "/api/items", none, none,
          some ⟨some nameStr, descOpt⟩, none, none⟩ db now).2.rows
        = db.rows
            ++ [⟨db.nextId, jsTrimStr nameStr, jsDescStore descOpt, some now⟩])
    ∧ (∀ req idStr it0, req.method = "PUT" → pathId req.path = some idStr →
        req.body = some ⟨some nameStr, descOpt⟩ →
        db.findByIdStr idStr = some it0 →
        (handleItemsAPI req db now).2.rows
          = db.rows.map (fun it =>
              if some it.id = parseNatStr idStr then
                { it with name := jsTrimStr nameStr,
                          description := jsDescStore descOpt }
              else it))
    ∧ ((descOpt = none ∨ descOpt = some "") → jsDescStore descOpt = none)
    ∧ (∀ s, descOpt = some s → s ≠ ""
        → jsDescStore descOpt = some (jsTrimStr s)) := by
  refine ⟨?_, ?_, ?_, ?_⟩
  · unfold handleItemsAPI
    simp [hname, ItemsDB.insert]
  · intro req idStr it0 hm hid hb hfind
    unfold handleItemsAPI
    simp [hm, hid, hb, hname, hfind, ItemsDB.updateById]
  · rintro (h | h) <;> subst h <;> simp [jsDescStore]
  · intro s hs hne
    subst hs
    simp [jsDescStore, hne]

/-- C10 witness: a falsy (empty-string) description stores NULL on create,
and a truthy padded description is stored trimmed on update. -/
theorem c10_description_normalization_witness :
    ((handleItemsAPI ⟨"POST", "/api/items", none, none,
          some ⟨some "A", some ""⟩, none, none⟩ ⟨[], 1⟩ 0).2.rows
        = [⟨1, "A", none, some 0⟩])
    ∧ ((handleItemsAPI ⟨"PUT", "/api/items/1", none, none,
          some ⟨some "B", some " x "⟩, none, none⟩
          ⟨[⟨1, "A", none, some 0⟩], 2⟩ 9).2.rows
        = [⟨1, "B", some "x", some 0⟩]) := by
  have h1 := (c10_description_normalization ⟨[], 1⟩ 0 "A" (some "")
    (by decide)).1
  have h2 := (c10_description_normalization ⟨[⟨1, "A", none, some 0⟩], 2⟩ 9
    "B" (some " x ") (by decide)).2.1
    ⟨"PUT", "/api/items/1", none, none, some ⟨some "B", some " x "⟩, none,
      none⟩
    "1" ⟨1, "A", none, some 0⟩ rfl (by decide) rfl (by decide)
  refine ⟨?_, ?_⟩
  · rw [h1]
    decide
  · rw [h2]
    decide

end CrudApp
